import Mathlib

set_option linter.unusedVariables false

/-!
Shallow embedding of the request-handling and error-normalization layer of
the `template_api_rust` service (`src/main.rs`, `src/response.rs`,
`src/models.rs`), together with theorems about the behaviour of its five
CRUD handlers.

Each handler is embedded as a pure function of its inputs and of the
outcome the persistence layer returned for the single query the handler
issues; the surrounding framework plumbing (routing, connection pool,
OpenAPI docs) carries no decision logic and is not modelled.
-/

namespace TemplateApiRust

/-- JSON values, used to state properties about serialized response bodies. -/
inductive Json where
  | null : Json
  | bool : Bool → Json
  | num : Int → Json
  | str : String → Json
  | arr : List Json → Json
  | obj : List (String × Json) → Json

/-- `models.rs`: `User { id: i32, name: String, email: String }`. -/
structure User where
  id : Int
  name : String
  email : String
deriving DecidableEq

/-- `models.rs`: `CreateUser { name: String, email: String }`. -/
structure CreateUser where
  name : String
  email : String
deriving DecidableEq

/-- `sqlx::Error`, abstracted to exactly the distinctions the handlers
inspect: the `RowNotFound` variant, the `Database` variant together with
its `is_unique_violation()` flag, and everything else. -/
inductive SqlxError where
  | RowNotFound : SqlxError
  | Database : Bool → SqlxError
  | Other : Nat → SqlxError
deriving DecidableEq

/-- `response.rs`: `ErrModel { success: bool, err: &'static str }`. -/
structure ErrModel where
  success : Bool
  err : String
deriving DecidableEq

/-- `response.rs`: `OkModel<T> { success: bool, data: T }`. -/
structure OkModel (T : Type) where
  success : Bool
  data : T
deriving DecidableEq

/-- `response.rs`: `enum AppError { Invalid { err: &'static str }, InternalError }`. -/
inductive AppError where
  | Invalid : String → AppError
  | InternalError : AppError
deriving DecidableEq

/-- `response.rs` `AppError::status_code`: `Invalid` is 400 Bad Request,
`InternalError` is 500 Internal Server Error. -/
def AppError.status_code : AppError → Nat
  | .Invalid _ => 400
  | .InternalError => 500

/-- An HTTP error response: the status code together with its `ErrModel` body. -/
structure HttpErrorResponse where
  status : Nat
  body : ErrModel
deriving DecidableEq

/-- `response.rs` `AppError::error_response`: builds the response with
`self.status_code()`; an `Invalid` carries its own message, an
`InternalError` always carries the fixed generic message. -/
def AppError.error_response (e : AppError) : HttpErrorResponse :=
  { status := e.status_code,
    body :=
      match e with
      | .Invalid err => { success := false, err := err }
      | .InternalError => { success := false, err := "500 error interno del servidor" } }

/-- `response.rs` `impl From<sqlx::Error> for AppError`: every sqlx error is
logged and mapped to `InternalError`. -/
def AppError.from_sqlx (_ : SqlxError) : AppError := .InternalError

/-- `sqlx`'s `PgQueryResult`, restricted to the `rows_affected` the delete
handler inspects. -/
structure PgQueryResult where
  rows_affected : Nat
deriving DecidableEq

/-- `main.rs` `get_users`: the `?` operator sends any query failure through
`From<sqlx::Error>`; success wraps the rows in an `OkModel`. -/
def get_users (dbResult : Except SqlxError (List User)) :
    Except AppError (OkModel (List User)) :=
  match dbResult with
  | .error e => .error (AppError.from_sqlx e)
  | .ok users => .ok { success := true, data := users }

/-- `main.rs` `get_user`: `RowNotFound` maps to
`Invalid { err: "Usuario no encontrado" }`; any other failure is logged and
maps to `InternalError`. -/
def get_user (user_id : Int) (dbResult : Except SqlxError User) :
    Except AppError (OkModel User) :=
  match dbResult with
  | .ok user => .ok { success := true, data := user }
  | .error SqlxError.RowNotFound => .error (.Invalid "Usuario no encontrado")
  | .error _ => .error .InternalError

/-- `main.rs` `create_user`: validation in two steps (required fields, then
`@` in the email), then the insert outcome; a database error whose
`is_unique_violation()` holds maps to the duplicate-email message, any other
failure is logged and maps to `InternalError`. -/
def create_user (new_user : CreateUser) (dbResult : Except SqlxError User) :
    Except AppError (OkModel User) :=
  if new_user.name.isEmpty || new_user.email.isEmpty then
    .error (.Invalid "Nombre y email son requeridos")
  else if !(new_user.email.contains '@') then
    .error (.Invalid "Formato de email inválido")
  else
    match dbResult with
    | .ok user => .ok { success := true, data := user }
    | .error (SqlxError.Database true) => .error (.Invalid "El email ya está registrado")
    | .error _ => .error .InternalError

/-- `main.rs` `update_user`: the same two validation steps as `create_user`,
then the update outcome; `RowNotFound` maps to the not-found message, a
unique violation to its own duplicate-email message, anything else is logged
and maps to `InternalError`. -/
def update_user (user_id : Int) (updated_user : CreateUser)
    (dbResult : Except SqlxError User) : Except AppError (OkModel User) :=
  if updated_user.name.isEmpty || updated_user.email.isEmpty then
    .error (.Invalid "Nombre y email son requeridos")
  else if !(updated_user.email.contains '@') then
    .error (.Invalid "Formato de email inválido")
  else
    match dbResult with
    | .ok user => .ok { success := true, data := user }
    | .error SqlxError.RowNotFound => .error (.Invalid "Usuario no encontrado")
    | .error (SqlxError.Database true) =>
        .error (.Invalid "El email ya está registrado por otro usuario")
    | .error _ => .error .InternalError

/-- `main.rs` `delete_user`: a successful execute with `rows_affected() > 0`
succeeds with unit data; zero rows affected maps to the not-found message;
a query failure is logged and maps to `InternalError`. -/
def delete_user (user_id : Int) (dbResult : Except SqlxError PgQueryResult) :
    Except AppError (OkModel Unit) :=
  match dbResult with
  | .ok result =>
      if result.rows_affected > 0 then .ok { success := true, data := () }
      else .error (.Invalid "Usuario no encontrado")
  | .error _ => .error .InternalError

/-- serde serialization of `User` (fields in declaration order). -/
def User.toJson (u : User) : Json :=
  .obj [("id", .num u.id), ("name", .str u.name), ("email", .str u.email)]

/-- serde serialization of a `Vec<User>`. -/
def usersToJson (us : List User) : Json :=
  .arr (us.map User.toJson)

/-- serde serialization of the Rust unit type `()`: `null`. -/
def unitToJson : Unit → Json := fun _ => .null

/-- serde serialization of `OkModel<T>` (fields in declaration order). -/
def OkModel.toJson {T : Type} (dataToJson : T → Json) (m : OkModel T) : Json :=
  .obj [("success", .bool m.success), ("data", dataToJson m.data)]

/-- serde serialization of `ErrModel` (fields in declaration order). -/
def ErrModel.toJson (m : ErrModel) : Json :=
  .obj [("success", .bool m.success), ("err", .str m.err)]

/-- Rendering of a handler result as the wire-level `(status, body)` pair:
actix-web serves a successful `web::Json` responder with status 200 OK, and
serves an `AppError` through its `error_response`. -/
def render {T : Type} (dataToJson : T → Json) :
    Except AppError (OkModel T) → Nat × Json
  | .ok m => (200, m.toJson dataToJson)
  | .error e => (e.error_response.status, e.error_response.body.toJson)

/-- The two admissible envelope shapes: `{success: true, data: _}` or
`{success: false, err: _}` — a boolean `success` field and exactly one of
`data`/`err`, consistent with `success`. -/
def isEnvelope : Json → Bool
  | .obj [("success", .bool true), ("data", _)] => true
  | .obj [("success", .bool false), ("err", .str _)] => true
  | _ => false

/-- Whether a `sqlx` error is a database error reporting
`is_unique_violation()`. -/
def SqlxError.isUniqueViolation : SqlxError → Bool
  | .Database b => b
  | _ => false

/-- Modelled from the spec: the Persistence Port `insert(name,email)`
(the concrete SQL store is not part of the repository). The `users.email`
column is unique: inserting a present email fails with a unique-constraint
violation and leaves the store unchanged; otherwise the store assigns a
fresh id and appends the record. -/
def dbInsert (db : List User) (name email : String) :
    List User × Except SqlxError User :=
  if db.any (fun u => u.email == email) then
    (db, .error (.Database true))
  else
    let u : User := { id := ((db.map User.id).foldr max 0) + 1, name := name, email := email }
    (db ++ [u], .ok u)

/-- Modelled from the spec: the Persistence Port `delete(id)` (the concrete
SQL store is not part of the repository). All rows with the given id are
removed and `rows_affected` reports how many were. -/
def dbDelete (db : List User) (id : Int) :
    List User × Except SqlxError PgQueryResult :=
  (db.filter (fun u => !(u.id == id)),
   .ok { rows_affected := (db.filter (fun u => u.id == id)).length })

/-- The message of an error result, as the client sees it after
`error_response`; `none` on success. -/
def respErrMsg {T : Type} : Except AppError (OkModel T) → Option String
  | .error e => some e.error_response.body.err
  | .ok _ => none

/-- The fixed, finite set of message literals compiled into the program. -/
def fixedErrMessages : List String :=
  ["Nombre y email son requeridos", "Formato de email inválido",
   "Usuario no encontrado", "El email ya está registrado",
   "El email ya está registrado por otro usuario",
   "500 error interno del servidor"]

/-- `String.contains` evaluated through the underlying character list. -/
lemma contains_of_mem {s : String} {c : Char} (h : c ∈ s.data) :
    s.contains c = true :=
  (String.contains_iff s c).mpr h

/-- `String.contains` refuted through the underlying character list. -/
lemma not_contains_of_not_mem {s : String} {c : Char} (h : c ∉ s.data) :
    s.contains c = false :=
  Bool.eq_false_iff.mpr fun ht => h ((String.contains_iff s c).mp ht)

/-- C1: on a successful insert the create handler returns a plain
`web::Json` value, which the framework serves with status 200 — not the
201 the claim (and the handler's own OpenAPI annotation) state. Evaluated
at the concrete failing input `{name: "Ana", email: "ana@x.com"}` with a
successful insert of user 1. -/
theorem c1_create_success_status_is_200 :
    (render User.toJson (create_user { name := "Ana", email := "ana@x.com" }
      (.ok { id := 1, name := "Ana", email := "ana@x.com" }))).1 = 200 := by
  have h1 : (("Ana" : String).isEmpty || ("ana@x.com" : String).isEmpty) = false := rfl
  have h2 : ("ana@x.com" : String).contains '@' = true := contains_of_mem (by decide)
  simp [render, create_user, h1, h2]

/-- C2: validation applies its rules in order and short-circuits on the
first failure, identically in `create_user` and `update_user`: an empty
name or empty email yields the required-fields `Invalid` error regardless
of whether the email contains `@`; otherwise a missing `@` yields the
email-format `Invalid` error; otherwise validation passes and a successful
persistence outcome produces a success, with no validation error returned.
(The spec quotes the messages in English translation; the compiled literals
are the Spanish ones proved here.) -/
theorem c2_validation_order (input : CreateUser) (id : Int)
    (dbC dbU : Except SqlxError User) :
    ((input.name.isEmpty || input.email.isEmpty) = true →
       create_user input dbC = .error (.Invalid "Nombre y email son requeridos") ∧
       update_user id input dbU = .error (.Invalid "Nombre y email son requeridos")) ∧
    ((input.name.isEmpty || input.email.isEmpty) = false →
     input.email.contains '@' = false →
       create_user input dbC = .error (.Invalid "Formato de email inválido") ∧
       update_user id input dbU = .error (.Invalid "Formato de email inválido")) ∧
    ((input.name.isEmpty || input.email.isEmpty) = false →
     input.email.contains '@' = true →
       (∀ u, create_user input (.ok u) = .ok { success := true, data := u }) ∧
       (∀ u, update_user id input (.ok u) = .ok { success := true, data := u })) := by
  refine ⟨fun h => ?_, fun h h2 => ?_, fun h h2 => ?_⟩
  · simp [create_user, update_user, h]
  · simp [create_user, update_user, h, h2]
  · exact ⟨fun u => by simp [create_user, h, h2],
           fun u => by simp [update_user, h, h2]⟩

/-- Witness for C2 at concrete inputs: empty fields (with a `@`-free email)
hit the required-fields error first, a non-empty `@`-free email hits the
format error, and a well-formed input with a successful insert succeeds. -/
theorem c2_validation_order_witness :
    create_user { name := "", email := "" }
      (.ok { id := 1, name := "a", email := "a@b" }) =
      .error (.Invalid "Nombre y email son requeridos") ∧
    create_user { name := "Ana", email := "anax.com" }
      (.ok { id := 1, name := "a", email := "a@b" }) =
      .error (.Invalid "Formato de email inválido") ∧
    create_user { name := "Ana", email := "ana@x.com" }
      (.ok { id := 1, name := "Ana", email := "ana@x.com" }) =
      .ok { success := true, data := { id := 1, name := "Ana", email := "ana@x.com" } } :=
  ⟨((c2_validation_order { name := "", email := "" } 0
      (.ok { id := 1, name := "a", email := "a@b" })
      (.ok { id := 1, name := "a", email := "a@b" })).1 rfl).1,
   (((c2_validation_order { name := "Ana", email := "anax.com" } 0
      (.ok { id := 1, name := "a", email := "a@b" })
      (.ok { id := 1, name := "a", email := "a@b" })).2.1 rfl
        (not_contains_of_not_mem (by decide))).1),
   ((c2_validation_order { name := "Ana", email := "ana@x.com" } 0
      (.ok { id := 1, name := "Ana", email := "ana@x.com" })
      (.ok { id := 1, name := "Ana", email := "ana@x.com" })).2.2 rfl
        (contains_of_mem (by decide))).1 { id := 1, name := "Ana", email := "ana@x.com" }⟩

/-- C4: a get whose lookup reports `RowNotFound` responds with status 400
and the not-found message (the spec's "user not found" is the English
translation of the compiled literal), and the status is neither 404 nor
500. -/
theorem c4_get_notfound_is_400 (id : Int) :
    render User.toJson (get_user id (.error .RowNotFound)) =
      (400, ErrModel.toJson { success := false, err := "Usuario no encontrado" }) ∧
    AppError.status_code (.Invalid "Usuario no encontrado") ≠ 404 ∧
    AppError.status_code (.Invalid "Usuario no encontrado") ≠ 500 :=
  ⟨rfl, by decide, by decide⟩

/-- C9: all persistence failures classified as `InternalError` are
client-indistinguishable: the `From<sqlx::Error>` conversion is constant,
and the 500 response body always carries the one fixed generic message,
never the underlying cause. -/
theorem c9_internal_errors_uniform (e1 e2 : SqlxError) :
    AppError.from_sqlx e1 = .InternalError ∧
    AppError.error_response (AppError.from_sqlx e1) =
      AppError.error_response (AppError.from_sqlx e2) ∧
    AppError.error_response .InternalError =
      { status := 500,
        body := { success := false, err := "500 error interno del servidor" } } :=
  ⟨rfl, rfl, rfl⟩

/-- Every error response body is an admissible envelope. -/
lemma error_render_envelope {T : Type} (dataToJson : T → Json) (e : AppError) :
    isEnvelope (render dataToJson (.error e)).2 = true := by
  cases e <;> rfl

/-- Every success response body built from an `OkModel` with `success := true`
is an admissible envelope. -/
lemma ok_render_envelope {T : Type} (dataToJson : T → Json) (d : T) :
    isEnvelope (render dataToJson (.ok { success := true, data := d })).2 = true :=
  rfl

/-- C3: every response body produced by any of the five handlers, on any
input and any persistence outcome, is one of the two envelope shapes: a
boolean `success` field plus exactly one of `data`/`err`, with `data`
present exactly when `success` is true and `err` exactly when it is
false. -/
theorem c3_envelope_shape (id : Int) (input : CreateUser)
    (dbL : Except SqlxError (List User)) (dbG dbC dbU : Except SqlxError User)
    (dbD : Except SqlxError PgQueryResult) :
    isEnvelope (render usersToJson (get_users dbL)).2 = true ∧
    isEnvelope (render User.toJson (get_user id dbG)).2 = true ∧
    isEnvelope (render User.toJson (create_user input dbC)).2 = true ∧
    isEnvelope (render User.toJson (update_user id input dbU)).2 = true ∧
    isEnvelope (render unitToJson (delete_user id dbD)).2 = true := by
  refine ⟨?_, ?_, ?_, ?_, ?_⟩
  · unfold get_users
    rcases dbL with e | us
    · exact error_render_envelope _ _
    · exact ok_render_envelope _ _
  · unfold get_user
    rcases dbG with e | u
    · cases e <;> exact error_render_envelope _ _
    · exact ok_render_envelope _ _
  · unfold create_user
    split
    · exact error_render_envelope _ _
    · split
      · exact error_render_envelope _ _
      · rcases dbC with e | u
        · rcases e with _ | b | n
          · exact error_render_envelope _ _
          · cases b <;> exact error_render_envelope _ _
          · exact error_render_envelope _ _
        · exact ok_render_envelope _ _
  · unfold update_user
    split
    · exact error_render_envelope _ _
    · split
      · exact error_render_envelope _ _
      · rcases dbU with e | u
        · rcases e with _ | b | n
          · exact error_render_envelope _ _
          · cases b <;> exact error_render_envelope _ _
          · exact error_render_envelope _ _
        · exact ok_render_envelope _ _
  · unfold delete_user
    rcases dbD with e | r
    · exact error_render_envelope _ _
    · by_cases h : r.rows_affected > 0
      · simp only [h, if_true]
        exact ok_render_envelope _ _
      · simp only [h, if_false]
        exact error_render_envelope _ _

/-- C5: error classification is total and closed. The `From<sqlx::Error>`
conversion used by the list handler maps every failure to `InternalError`;
for each other handler, every persistence failure reaches exactly one
`AppError`: the specifically recognized kinds (`RowNotFound` where the
handler matches it, a unique violation where the handler matches it) map to
their `Invalid` messages, and every unrecognized kind falls through to
`InternalError` rather than exposing the raw error. -/
theorem c5_classifier_total (e : SqlxError) (id : Int) (input : CreateUser)
    (hval : (input.name.isEmpty || input.email.isEmpty) = false)
    (hat : input.email.contains '@' = true) :
    AppError.from_sqlx e = .InternalError ∧
    get_users (.error e) = .error .InternalError ∧
    get_user id (.error e) =
      .error (if e = .RowNotFound then .Invalid "Usuario no encontrado"
              else .InternalError) ∧
    create_user input (.error e) =
      .error (if e.isUniqueViolation then .Invalid "El email ya está registrado"
              else .InternalError) ∧
    update_user id input (.error e) =
      .error (if e = .RowNotFound then .Invalid "Usuario no encontrado"
              else if e.isUniqueViolation then
                .Invalid "El email ya está registrado por otro usuario"
              else .InternalError) ∧
    delete_user id (.error e) = .error .InternalError := by
  refine ⟨rfl, rfl, ?_, ?_, ?_, rfl⟩
  · rcases e with _ | b | n
    · rfl
    · cases b <;> rfl
    · rfl
  · rcases e with _ | b | n
    · simp [create_user, hval, hat, SqlxError.isUniqueViolation]
    · cases b <;> simp [create_user, hval, hat, SqlxError.isUniqueViolation]
    · simp [create_user, hval, hat, SqlxError.isUniqueViolation]
  · rcases e with _ | b | n
    · simp [update_user, hval, hat, SqlxError.isUniqueViolation]
    · cases b <;> simp [update_user, hval, hat, SqlxError.isUniqueViolation]
    · simp [update_user, hval, hat, SqlxError.isUniqueViolation]

/-- Witness for C5 at the concrete input `{name: "Ana", email: "a@b"}` and
the unrecognized failure kind `Other 0`: every handler maps it to
`InternalError`. -/
theorem c5_classifier_total_witness :
    create_user { name := "Ana", email := "a@b" } (.error (.Other 0)) =
      .error .InternalError ∧
    update_user 7 { name := "Ana", email := "a@b" } (.error (.Other 0)) =
      .error .InternalError :=
  ⟨(c5_classifier_total (.Other 0) 7 { name := "Ana", email := "a@b" } rfl
      (contains_of_mem (by decide))).2.2.2.1,
   (c5_classifier_total (.Other 0) 7 { name := "Ana", email := "a@b" } rfl
      (contains_of_mem (by decide))).2.2.2.2.1⟩

/-- C6: a create request that passes validation and whose insert hits the
unique email constraint responds 400 with the duplicate-email message (the
spec's "email already registered" is the English translation of the
compiled literal), and the store is left unchanged: no new record is
created. -/
theorem c6_create_duplicate_email (db : List User) (input : CreateUser)
    (hval : (input.name.isEmpty || input.email.isEmpty) = false)
    (hat : input.email.contains '@' = true)
    (hdup : db.any (fun u => u.email == input.email) = true) :
    (dbInsert db input.name input.email).2 = .error (.Database true) ∧
    (dbInsert db input.name input.email).1 = db ∧
    render User.toJson (create_user input (dbInsert db input.name input.email).2) =
      (400, ErrModel.toJson { success := false, err := "El email ya está registrado" }) := by
  have h2 : (dbInsert db input.name input.email).2 = .error (.Database true) := by
    simp [dbInsert, hdup]
  refine ⟨h2, by simp [dbInsert, hdup], ?_⟩
  rw [h2]
  simp [create_user, hval, hat, render, AppError.error_response, AppError.status_code]

/-- Witness for C6: inserting a second user with the already-present email
`"a@b"` fails with the duplicate message and leaves the store as it was. -/
theorem c6_create_duplicate_email_witness :
    (dbInsert [{ id := 1, name := "Ana", email := "a@b" }] "Bob" "a@b").1 =
      [{ id := 1, name := "Ana", email := "a@b" }] ∧
    render User.toJson (create_user { name := "Bob", email := "a@b" }
        (dbInsert [{ id := 1, name := "Ana", email := "a@b" }] "Bob" "a@b").2) =
      (400, ErrModel.toJson { success := false, err := "El email ya está registrado" }) :=
  ⟨(c6_create_duplicate_email [{ id := 1, name := "Ana", email := "a@b" }]
      { name := "Bob", email := "a@b" } rfl (contains_of_mem (by decide)) rfl).2.1,
   (c6_create_duplicate_email [{ id := 1, name := "Ana", email := "a@b" }]
      { name := "Bob", email := "a@b" } rfl (contains_of_mem (by decide)) rfl).2.2⟩

/-- Deleting an id that is present affects at least one row. -/
lemma dbDelete_rows_pos {db : List User} {id : Int}
    (h : ∃ u ∈ db, u.id = id) :
    0 < (db.filter (fun u => u.id == id)).length := by
  obtain ⟨u, hu, hid⟩ := h
  exact List.length_pos.mpr
    (List.ne_nil_of_mem (List.mem_filter.mpr ⟨hu, by simp [hid]⟩))

/-- After a delete, no row with the deleted id remains. -/
lemma dbDelete_rows_second_zero (db : List User) (id : Int) :
    ((dbDelete db id).1.filter (fun u => u.id == id)).length = 0 := by
  have h : (dbDelete db id).1.filter (fun u => u.id == id) = [] := by
    refine List.filter_eq_nil_iff.mpr fun u hu => ?_
    have := (List.mem_filter.mp hu).2
    simp only [dbDelete] at hu
    have hne := (List.mem_filter.mp hu).2
    simpa using hne
  simp [h]

/-- C7: the delete handler returns 200 with `data: null` exactly when the
delete affected at least one row, and the not-found 400 (message translated
in the spec as "user not found") when zero rows were affected; consequently
deleting the same present id twice gives 200 on the first call and 400 on
the second. -/
theorem c7_delete_twice (id : Int) (r : PgQueryResult) (db : List User) :
    (r.rows_affected > 0 →
       render unitToJson (delete_user id (.ok r)) =
         (200, Json.obj [("success", Json.bool true), ("data", Json.null)])) ∧
    (r.rows_affected = 0 →
       render unitToJson (delete_user id (.ok r)) =
         (400, ErrModel.toJson { success := false, err := "Usuario no encontrado" })) ∧
    ((∃ u ∈ db, u.id = id) →
       render unitToJson (delete_user id (dbDelete db id).2) =
         (200, Json.obj [("success", Json.bool true), ("data", Json.null)]) ∧
       render unitToJson (delete_user id (dbDelete (dbDelete db id).1 id).2) =
         (400, ErrModel.toJson { success := false, err := "Usuario no encontrado" })) := by
  refine ⟨fun h => ?_, fun h => ?_, fun h => ⟨?_, ?_⟩⟩
  · simp [delete_user, h, render, OkModel.toJson, unitToJson]
  · simp [delete_user, h, render, AppError.error_response, AppError.status_code]
  · have hp := dbDelete_rows_pos h
    simp [dbDelete, delete_user, hp, render, OkModel.toJson, unitToJson]
  · have hz := dbDelete_rows_second_zero db id
    rw [show (dbDelete (dbDelete db id).1 id).2 =
          .ok { rows_affected := ((dbDelete db id).1.filter (fun u => u.id == id)).length }
        from rfl, hz]
    simp [delete_user, render, AppError.error_response, AppError.status_code]

/-- Witness for C7: in the store holding exactly user 1, deleting id 1
twice yields 200 with null data, then 400 not-found. -/
theorem c7_delete_twice_witness :
    render unitToJson (delete_user 1
        (dbDelete [{ id := 1, name := "Ana", email := "a@b" }] 1).2) =
      (200, Json.obj [("success", Json.bool true), ("data", Json.null)]) ∧
    render unitToJson (delete_user 1
        (dbDelete (dbDelete [{ id := 1, name := "Ana", email := "a@b" }] 1).1 1).2) =
      (400, ErrModel.toJson { success := false, err := "Usuario no encontrado" }) :=
  (c7_delete_twice 1 { rows_affected := 1 } [{ id := 1, name := "Ana", email := "a@b" }]).2.2
    ⟨{ id := 1, name := "Ana", email := "a@b" }, by simp⟩

/-- C8 counterexample: at the concrete unique-violation outcome, update's
message is `"El email ya está registrado por otro usuario"` while create's
is `"El email ya está registrado"` — the two literals differ, so the two
handlers do not produce equal messages for a unique violation, contrary to
the claim. -/
theorem c8_update_create_unique_messages_differ :
    create_user { name := "Ana", email := "a@b" } (.error (.Database true)) =
      .error (.Invalid "El email ya está registrado") ∧
    update_user 1 { name := "Ana", email := "a@b" } (.error (.Database true)) =
      .error (.Invalid "El email ya está registrado por otro usuario") ∧
    ("El email ya está registrado por otro usuario" : String) ≠
      "El email ya está registrado" := by
  have hval : (("Ana" : String).isEmpty || ("a@b" : String).isEmpty) = false := rfl
  have hat : ("a@b" : String).contains '@' = true := contains_of_mem (by decide)
  exact ⟨by simp [create_user, hval, hat], by simp [update_user, hval, hat], by decide⟩

/-- C8 amended: update applies the same validation as create (any
validation-failing input yields the identical error in both handlers,
whatever the persistence outcomes), its not-found failure carries exactly
the message the get handler produces, and its unique-violation failure is a
400 `Invalid` like create's but with the distinct literal
`"El email ya está registrado por otro usuario"` instead of create's
`"El email ya está registrado"`. -/
theorem c8_update_validation_and_classifier (id id2 : Int) (input : CreateUser)
    (dbC dbU : Except SqlxError User) :
    ((input.name.isEmpty || input.email.isEmpty) = true ∨
       input.email.contains '@' = false →
       update_user id input dbU = create_user input dbC ∧
       (∃ m, update_user id input dbU = .error (.Invalid m))) ∧
    ((input.name.isEmpty || input.email.isEmpty) = false →
     input.email.contains '@' = true →
       (update_user id input (.error .RowNotFound) =
          .error (.Invalid "Usuario no encontrado") ∧
        get_user id2 (.error .RowNotFound) =
          .error (.Invalid "Usuario no encontrado")) ∧
       (update_user id input (.error (.Database true)) =
          .error (.Invalid "El email ya está registrado por otro usuario") ∧
        create_user input (.error (.Database true)) =
          .error (.Invalid "El email ya está registrado"))) := by
  constructor
  · intro h
    rcases h with h | h
    · exact ⟨by simp [update_user, create_user, h],
             ⟨"Nombre y email son requeridos", by simp [update_user, h]⟩⟩
    · by_cases hval : (input.name.isEmpty || input.email.isEmpty) = true
      · exact ⟨by simp [update_user, create_user, hval],
               ⟨"Nombre y email son requeridos", by simp [update_user, hval]⟩⟩
      · have hval' : (input.name.isEmpty || input.email.isEmpty) = false :=
          Bool.eq_false_iff.mpr hval
        exact ⟨by simp [update_user, create_user, hval', h],
               ⟨"Formato de email inválido", by simp [update_user, hval', h]⟩⟩
  · intro hval hat
    exact ⟨⟨by simp [update_user, hval, hat], rfl⟩,
           ⟨by simp [update_user, hval, hat], by simp [create_user, hval, hat]⟩⟩

/-- Witness for C8 amended at concrete inputs: an empty-fields input gets
the identical validation error from update and create, and a valid input
hits the two distinct unique-violation messages. -/
theorem c8_update_validation_and_classifier_witness :
    update_user 1 { name := "", email := "" } (.error (.Other 0)) =
      create_user { name := "", email := "" } (.error .RowNotFound) ∧
    update_user 1 { name := "Ana", email := "a@b" } (.error (.Database true)) =
      .error (.Invalid "El email ya está registrado por otro usuario") :=
  ⟨((c8_update_validation_and_classifier 1 2 { name := "", email := "" }
      (.error .RowNotFound) (.error (.Other 0))).1 (Or.inl rfl)).1,
   (((c8_update_validation_and_classifier 1 2 { name := "Ana", email := "a@b" }
      (.error (.Database true)) (.error (.Database true))).2 rfl
        (contains_of_mem (by decide))).2).1⟩

/-- The client-visible message of any single `AppError` whose `Invalid`
payload is one of the compiled validation or classifier literals lies in
the fixed message set. -/
lemma errmsg_mem_of_error {T : Type} {r : Except AppError (OkModel T)} {m : String}
    (hr : ∀ e, r = .error e →
      e = .InternalError ∨
      e = .Invalid "Nombre y email son requeridos" ∨
      e = .Invalid "Formato de email inválido" ∨
      e = .Invalid "Usuario no encontrado" ∨
      e = .Invalid "El email ya está registrado" ∨
      e = .Invalid "El email ya está registrado por otro usuario")
    (hm : respErrMsg r = some m) : m ∈ fixedErrMessages := by
  rcases r with e | v
  · have := hr e rfl
    simp only [respErrMsg, Option.some.injEq] at hm
    rcases this with h | h | h | h | h | h <;>
      subst h <;>
      simp [AppError.error_response, ErrModel.toJson] at hm <;>
      subst hm <;>
      simp [fixedErrMessages]
  · simp [respErrMsg] at hm

/-- C10: every error message any handler can emit, on any input and any
persistence outcome, is one of the six string literals compiled into the
program; in particular no user-supplied name, email or id is ever placed in
an error response body. -/
theorem c10_messages_from_fixed_set (id : Int) (input : CreateUser)
    (dbL : Except SqlxError (List User)) (dbG dbC dbU : Except SqlxError User)
    (dbD : Except SqlxError PgQueryResult) :
    (∀ m, respErrMsg (get_users dbL) = some m → m ∈ fixedErrMessages) ∧
    (∀ m, respErrMsg (get_user id dbG) = some m → m ∈ fixedErrMessages) ∧
    (∀ m, respErrMsg (create_user input dbC) = some m → m ∈ fixedErrMessages) ∧
    (∀ m, respErrMsg (update_user id input dbU) = some m → m ∈ fixedErrMessages) ∧
    (∀ m, respErrMsg (delete_user id dbD) = some m → m ∈ fixedErrMessages) := by
  refine ⟨fun m hm => ?_, fun m hm => ?_, fun m hm => ?_, fun m hm => ?_, fun m hm => ?_⟩
  · refine errmsg_mem_of_error (r := get_users dbL) ?_ hm
    intro e he
    unfold get_users at he
    rcases dbL with e0 | us
    · simp [AppError.from_sqlx] at he
      simp [he]
    · simp at he
  · refine errmsg_mem_of_error (r := get_user id dbG) ?_ hm
    intro e he
    unfold get_user at he
    rcases dbG with e0 | u
    · rcases e0 with _ | b | n <;> simp at he <;> simp [he]
    · simp at he
  · refine errmsg_mem_of_error (r := create_user input dbC) ?_ hm
    intro e he
    unfold create_user at he
    split at he
    · simp at he
      simp [he]
    · split at he
      · simp at he
        simp [he]
      · rcases dbC with e0 | u
        · rcases e0 with _ | b | n
          · simp at he
            simp [he]
          · cases b <;> simp at he <;> simp [he]
          · simp at he
            simp [he]
        · simp at he
  · refine errmsg_mem_of_error (r := update_user id input dbU) ?_ hm
    intro e he
    unfold update_user at he
    split at he
    · simp at he
      simp [he]
    · split at he
      · simp at he
        simp [he]
      · rcases dbU with e0 | u
        · rcases e0 with _ | b | n
          · simp at he
            simp [he]
          · cases b <;> simp at he <;> simp [he]
          · simp at he
            simp [he]
        · simp at he
  · refine errmsg_mem_of_error (r := delete_user id dbD) ?_ hm
    intro e he
    unfold delete_user at he
    rcases dbD with e0 | r
    · simp at he
      simp [he]
    · by_cases hz : r.rows_affected > 0
      · simp [hz] at he
      · simp [hz] at he
        simp [he]

/-- Witness for C10: the not-found message emitted by the get handler is in
the fixed compiled set. -/
theorem c10_messages_from_fixed_set_witness :
    "Usuario no encontrado" ∈ fixedErrMessages :=
  (c10_messages_from_fixed_set 1 { name := "Ana", email := "a@b" }
      (.ok []) (.error .RowNotFound)
      (.ok { id := 1, name := "Ana", email := "a@b" })
      (.ok { id := 1, name := "Ana", email := "a@b" })
      (.ok { rows_affected := 1 })).2.1 "Usuario no encontrado" rfl

end TemplateApiRust
